import Mathlib

/-!
Verification of the daytime-over-SCTP client/server pair (daytimed.c and
the client daytime.c). The C sources are embedded shallowly: socket-layer
outcomes (resolution results, accept/bind/connect successes, byte counts
reported by sends) are inputs of the embedded functions, and the programs'
observable behaviour (log entries, sends, closes, stdout/stderr lines,
exit codes) is returned as data. errno/gai strings that the C code splices
into diagnostics are carried as environment fields where a claim depends
on the message text and elided otherwise.
-/

/-- Does `pat` occur at the head of `s`? (helper for the strstr model). -/
def hasPre {α : Type} [DecidableEq α] : List α → List α → Bool
  | [], _ => true
  | _ :: _, [] => false
  | p :: ps, c :: cs => p = c && hasPre ps cs

/-- Index of the first occurrence of `pat` inside `s`, as C strstr computes
it on NUL-terminated strings (generalised to any element type). -/
def findSub {α : Type} [DecidableEq α] (pat : List α) : List α → Option Nat
  | [] => if pat.isEmpty then some 0 else none
  | c :: cs => if hasPre pat (c :: cs) then some 0 else (findSub pat cs).map (· + 1)

/-- Boolean substring containment, from `findSub`. -/
def containsSub {α : Type} [DecidableEq α] (pat s : List α) : Bool :=
  (findSub pat s).isSome

/-- The C string stored in a buffer holding `bytes`: everything before the
first NUL. -/
def cstr (bytes : List Nat) : List Nat := bytes.takeWhile (· ≠ 0)

/-- Status passed by `exit(EXIT_SUCCESS)` / `return EXIT_SUCCESS`. -/
def EXIT_SUCCESS : Nat := 0

/-- Status passed by `exit(EXIT_FAILURE)`. -/
def EXIT_FAILURE : Nat := 1

namespace Server

/-- The global `static const char *progname = "daytimed";` in daytimed.c. -/
def progname : String := "daytimed"

/-- A `struct tm` value as produced by `localtime`/`gmtime`: the fields
read by the `%F %T` format. `tm_year` counts years since 1900, `tm_mon`
months since January. -/
structure Tm where
  tm_sec : Nat
  tm_min : Nat
  tm_hour : Nat
  tm_mday : Nat
  tm_mon : Nat
  tm_year : Nat
deriving DecidableEq, Repr

/-- The decimal digit character for `n % 10`. -/
def digitChar (n : Nat) : Char := Char.ofNat (48 + n % 10)

/-- Two-digit zero-padded decimal rendering, as strftime's `%m %d %H %M %S`
produce for their in-range field values (0..99). -/
def pad2 (n : Nat) : String := String.mk [digitChar (n / 10), digitChar n]

/-- Four-digit zero-padded decimal rendering, as strftime's `%Y` (inside
`%F`) produces for years 0..9999, the range `localtime`/`gmtime` return in
practice. -/
def pad4 (n : Nat) : String :=
  String.mk [digitChar (n / 1000), digitChar (n / 100), digitChar (n / 10), digitChar n]

/-- The string `strftime(.., .., "%F %T\r\n", tm)` renders: `%F` is
`%Y-%m-%d` and `%T` is `%H:%M:%S`. -/
def strftimeFT (tm : Tm) : String :=
  pad4 (tm.tm_year + 1900) ++ "-" ++ pad2 (tm.tm_mon + 1) ++ "-" ++ pad2 tm.tm_mday
    ++ " " ++ pad2 tm.tm_hour ++ ":" ++ pad2 tm.tm_min ++ ":" ++ pad2 tm.tm_sec ++ "\r\n"

/-- The call `strftime(buffer, size, "%F %T\r\n", tm)`: the rendering is stored only
when it fits in `size` bytes including the terminating NUL; otherwise
strftime returns 0 and no usable string is produced (modelled as the empty
string). -/
def strftime (size : Nat) (tm : Tm) : String :=
  if (strftimeFT tm).length < size then strftimeFT tm else ""

/-- Observable actions of the server: syslog entries, SCTP message sends
(stream number and payload), and closing the client association. -/
inductive Action
  | logErr (msg : String)
  | logDebug (msg : String)
  | send (stream : Nat) (payload : String)
  | close
deriving DecidableEq, Repr

/-- Embedding of `daytime(buffer, size, local)` in daytimed.c. The results
of `localtime` and `gmtime` on the current ticks are inputs (`none` models
the NULL return of a failed time breakdown). Returns the buffer contents
and the syslog entries written. -/
def daytime (size : Nat) (loc : Bool) (tmLocal tmGmt : Option Tm) : String × List Action :=
  match (if loc then tmLocal else tmGmt) with
  | none => ("", [Action.logErr "localtime or gmtime failed"])
  | some tm => (strftime size tm, [])

/-- One address candidate returned by `getaddrinfo` on the server: the
result of `socket()` for it (negative models failure) and whether `bind`
on it succeeds. -/
structure Candidate where
  fd : Int
  bindOk : Bool
deriving DecidableEq, Repr

/-- The candidate-iteration loop of `sctp_listen`: skip candidates whose
socket creation fails, stop at the first successful bind (closing failed
attempts), `none` when the list is exhausted (`ai == NULL`). -/
def firstBind : List Candidate → Option Int
  | [] => none
  | c :: rest =>
    if c.fd < 0 then firstBind rest
    else if c.bindOk then some c.fd
    else firstBind rest

/-- Environment of one `sctp_listen` call: the resolved candidate list
(`none` models getaddrinfo failure) and whether `listen(fd, 42)` succeeds. -/
structure ListenEnv where
  resolved : Option (List Candidate)
  listenOk : Bool
deriving DecidableEq, Repr

/-- Embedding of `sctp_listen(port)` in daytimed.c: -1 on resolution
failure, on exhaustion of bind candidates, or on `listen` failure; the
bound descriptor otherwise. The fprintf diagnostics are not modelled. -/
def sctp_listen (e : ListenEnv) : Int :=
  match e.resolved with
  | none => -1
  | some cands =>
    match firstBind cands with
    | none => -1
    | some fd => if e.listenOk then fd else -1

/-- Environment of one `sctp_accept` call: whether `accept` succeeds, the
descriptor it returns on success, and the outcome of the best-effort
`getnameinfo` reverse lookup. -/
structure AcceptEnv where
  ok : Bool
  fd : Nat
  nameinfoOk : Bool
  host : String
  serv : String
deriving DecidableEq, Repr

/-- Embedding of `sctp_accept(listen)` in daytimed.c: on accept failure
log an error and return -1; on success log the reverse-lookup result
(debug entry, or an error entry if the lookup fails) and return the new
descriptor. -/
def sctp_accept (e : AcceptEnv) : Int × List Action :=
  if e.ok = false then (-1, [Action.logErr "accept failed"])
  else ((e.fd : Int),
    if e.nameinfoOk = false then [Action.logErr "getnameinfo failed"]
    else [Action.logDebug ("connection from " ++ e.host ++ ":" ++ e.serv)])

/-- Environment of one `sctp_daytime` iteration: the accept outcome, the
`localtime`/`gmtime` results, and the byte counts the two `sctp_sendmsg`
calls report (an error return -1, stored into the `size_t n`, is some
value different from the message length). -/
structure SessionEnv where
  acc : AcceptEnv
  tmLocal : Option Tm
  tmGmt : Option Tm
  sentLocal : Nat
  sentGmt : Nat
deriving DecidableEq, Repr

/-- Embedding of `sctp_daytime(listenfd)` in daytimed.c: accept; on accept
failure return; otherwise send the local-time string on stream 0 and the
GMT string on stream 1 (logging when the reported byte count differs from
the message length) and close the client descriptor. The returned list is
the sequence of observable actions. -/
def sctp_daytime (e : SessionEnv) : List Action :=
  match sctp_accept e.acc with
  | (client, acts) =>
    if client = -1 then acts
    else
      let r1 := daytime 128 true e.tmLocal e.tmGmt
      let log1 := if e.sentLocal ≠ r1.1.length then
          [Action.logErr "sctp_sendmsg failed (daytime_stream_local)"] else []
      let r2 := daytime 128 false e.tmLocal e.tmGmt
      let log2 := if e.sentGmt ≠ r2.1.length then
          [Action.logErr "sctp_sendmsg failed (daytime_stream_gmt)"] else []
      acts ++ r1.2 ++ [Action.send 0 r1.1] ++ log1
           ++ r2.2 ++ [Action.send 1 r2.1] ++ log2 ++ [Action.close]

/-- A finite prefix of the `while (tfd != -1) sctp_daytime(tfd);` loop of
the server `main`: processes the supplied session environments, and
reports whether the loop has exited. `tfd` is never written inside the
loop, so the guard is evaluated on the same value every iteration. -/
def serverRun (tfd : Int) : List SessionEnv → List Action × Bool
  | [] => ([], decide (tfd = -1))
  | e :: rest =>
    if tfd = -1 then ([], true)
    else
      let r := serverRun tfd rest
      (sctp_daytime e ++ r.1, r.2)

/-- Exit status of the server `main` as a function of `argc` and the
`sctp_listen` outcome, when it terminates: usage error exits
`EXIT_FAILURE`; when `sctp_listen` returns -1 the while loop is skipped
and `main` falls through to `return EXIT_SUCCESS`; otherwise the loop
never terminates (`none`). -/
def serverMain (argc : Nat) (e : ListenEnv) : Option Nat :=
  if argc ≠ 2 then some EXIT_FAILURE
  else if sctp_listen e = -1 then some EXIT_SUCCESS
  else none

end Server

namespace Client

/-- The global `static const char *progname = "daytime";` in the client daytime.c. -/
def progname : String := "daytime"

/-- One address candidate returned by `getaddrinfo` on the client: the
result of `socket()` (negative models failure) and whether `connect` on it
succeeds. -/
structure ConnCandidate where
  fd : Int
  connectOk : Bool
deriving DecidableEq, Repr

/-- The candidate-iteration loop of `sctp_connect`: skip candidates whose
socket creation fails, stop at the first successful connect (closing
failed attempts), `none` when the list is exhausted (`ai == NULL`). -/
def firstConn : List ConnCandidate → Option Int
  | [] => none
  | c :: rest =>
    if c.fd < 0 then firstConn rest
    else if c.connectOk then some c.fd
    else firstConn rest

/-- Environment of one `sctp_connect` call: the resolved candidate list
(`none` models getaddrinfo failure, with `gaiErr` the `gai_strerror`
text). -/
structure ConnectEnv where
  resolved : Option (List ConnCandidate)
  gaiErr : String
deriving DecidableEq, Repr

/-- Result of `sctp_connect`: an open descriptor, or process termination
via `exit` with the given status after printing the given stderr line. -/
inductive ConnectResult
  | ok (fd : Int)
  | fatal (status : Nat) (msg : String)
deriving DecidableEq, Repr

/-- Embedding of `sctp_connect(host, port)` in the client daytime.c:
`exit(EXIT_FAILURE)` with a `getaddrinfo` diagnostic when resolution
fails; `exit(EXIT_FAILURE)` with a diagnostic naming host and port when
no candidate connects; the connected descriptor otherwise. -/
def sctp_connect (host port : String) (e : ConnectEnv) : ConnectResult :=
  match e.resolved with
  | none => ConnectResult.fatal EXIT_FAILURE
      (progname ++ ": getaddrinfo: " ++ e.gaiErr ++ "\n")
  | some cands =>
    match firstConn cands with
    | some fd => ConnectResult.ok fd
    | none => ConnectResult.fatal EXIT_FAILURE
        (progname ++ ": socket or connect: failed for " ++ host ++ " port " ++ port ++ "\n")

/-- Observable actions of the client `daytime` function: stdout lines
(printf), stderr lines (fprintf), and the `setsockopt(SCTP_EVENTS)` call
that enables per-message stream metadata. -/
inductive COut
  | out (line : String)
  | err (line : String)
  | setEvents
deriving DecidableEq, Repr

/-- One message delivered by `sctp_recvmsg`: the stream number carried in
`sinfo.sinfo_stream` and the payload bytes. An empty delivery models the
zero return that ends the receive loop. -/
structure WireMsg where
  stream : Nat
  payload : List Nat
deriving DecidableEq, Repr

/-- The bytes one `sctp_recvmsg(fd, message, sizeof(message) - 1, ...)`
call stores: at most 127 bytes of the delivered payload. -/
def recvRead (m : WireMsg) : List Nat := m.payload.take 127

/-- NUL-trimming of a received buffer: `message[n] = '\0'` makes the C
string `cstr bytes`; `strstr(message, "\r\n")` finds the first CRLF in
that C string and `*p = 0` truncates there. The result is what the later
`printf("%s", ...)` prints. -/
def trimCRLF (bytes : List Nat) : List Nat :=
  let s := cstr bytes
  match findSub [13, 10] s with
  | some i => s.take i
  | none => s

/-- Render received bytes for printf output. -/
def bytesToString (bytes : List Nat) : String := String.mk (bytes.map Char.ofNat)

/-- The body of the client receive loop for one message already read into
the buffer: trim, then dispatch on `sinfo.sinfo_stream` — stream 0 prints
a "(local time)" line, stream 1 a "(gmt time)" line, anything else is
reported to stderr and ignored. -/
def handleMessage (host serv : String) (stream : Nat) (bytes : List Nat) : List COut :=
  let msg := bytesToString (trimCRLF bytes)
  if stream = 0 then
    [COut.out (host ++ ":" ++ serv ++ "\t " ++ msg ++ " (local time)\n")]
  else if stream = 1 then
    [COut.out (host ++ ":" ++ serv ++ "\t " ++ msg ++ " (gmt time)\n")]
  else
    [COut.err (progname ++ ": ignoring message from unknown stream " ++ toString stream ++ "\n")]

/-- The `while ((n = sctp_recvmsg(...)) > 0)` loop: each iteration reads
at most 127 bytes of the next delivery; a non-positive read count (empty
delivery) ends the loop. -/
def recvLoop (host serv : String) : List WireMsg → List COut
  | [] => []
  | m :: rest =>
    let bytes := recvRead m
    if bytes.length = 0 then []
    else handleMessage host serv m.stream bytes ++ recvLoop host serv rest

/-- Environment of one client `daytime(fd)` call: outcomes of
`getpeername` and `getnameinfo` (with the error texts their diagnostics
splice in), the formatted peer host/service on success, the `setsockopt`
outcome, and the deliveries the receive loop will see. -/
structure ClientEnv where
  getpeernameOk : Bool
  peerErr : String
  getnameinfoOk : Bool
  nameErr : String
  host : String
  serv : String
  setsockoptOk : Bool
  sockErr : String
  msgs : List WireMsg
deriving DecidableEq, Repr

/-- Embedding of `daytime(fd)` in the client daytime.c: a failed
`getpeername` or `getnameinfo` prints a diagnostic and returns
immediately; otherwise the `SCTP_EVENTS` option is set (a failure there
only prints a diagnostic) and the receive loop runs. -/
def daytime (e : ClientEnv) : List COut :=
  if e.getpeernameOk = false then
    [COut.err (progname ++ ": getpeername: " ++ e.peerErr ++ "\n")]
  else if e.getnameinfoOk = false then
    [COut.err (progname ++ ": getnameinfo: " ++ e.nameErr ++ "\n")]
  else
    COut.setEvents ::
      ((if e.setsockoptOk then []
        else [COut.err (progname ++ ": setsockopt failed: " ++ e.sockErr ++ "\n")]) ++
       recvLoop e.host e.serv e.msgs)

end Client

/-! Helper lemmas shared by the claim theorems. -/

theorem hasPre_self_append {α : Type} [DecidableEq α] (pat rest : List α) :
    hasPre pat (pat ++ rest) = true := by
  induction pat with
  | nil => rfl
  | cons p ps ih => simp [hasPre, ih]

theorem findSub_isSome_self {α : Type} [DecidableEq α] (pat b : List α) :
    (findSub pat (pat ++ b)).isSome = true := by
  cases pat with
  | nil => cases b <;> simp [findSub, hasPre]
  | cons p ps =>
    have h := hasPre_self_append (p :: ps) b
    rw [List.cons_append] at h
    simp [findSub, h]

theorem containsSub_of_append {α : Type} [DecidableEq α] (pat a b : List α) :
    containsSub pat (a ++ (pat ++ b)) = true := by
  induction a with
  | nil => simpa [containsSub] using findSub_isSome_self pat b
  | cons c a ih =>
    simp only [containsSub, List.cons_append, findSub]
    split
    · rfl
    · simpa [containsSub] using ih

theorem containsSub_of_eq {α : Type} [DecidableEq α] (pat s a b : List α)
    (h : s = a ++ (pat ++ b)) : containsSub pat s = true := by
  rw [h]; exact containsSub_of_append pat a b

theorem cstr_eq_self (bytes : List Nat) (h : (0 : Nat) ∉ bytes) : cstr bytes = bytes := by
  induction bytes with
  | nil => rfl
  | cons b l ih =>
    simp only [List.mem_cons, not_or] at h
    simp [cstr, List.takeWhile, Ne.symm h.1]
    simpa [cstr] using ih h.2

namespace Server

theorem close_not_mem_accept_snd (e : AcceptEnv) :
    Action.close ∉ (sctp_accept e).2 := by
  cases h : e.ok <;> cases h2 : e.nameinfoOk <;> simp [sctp_accept, h, h2]

theorem send_not_mem_accept_snd (e : AcceptEnv) (s : Nat) (p : String) :
    Action.send s p ∉ (sctp_accept e).2 := by
  cases h : e.ok <;> cases h2 : e.nameinfoOk <;> simp [sctp_accept, h, h2]

theorem close_not_mem_daytime_snd (size : Nat) (loc : Bool) (tl tg : Option Tm) :
    Action.close ∉ (daytime size loc tl tg).2 := by
  rcases h : (if loc then tl else tg) with _ | tm <;> simp [daytime, h]

theorem send_not_mem_daytime_snd (size : Nat) (loc : Bool) (tl tg : Option Tm)
    (s : Nat) (p : String) : Action.send s p ∉ (daytime size loc tl tg).2 := by
  rcases h : (if loc then tl else tg) with _ | tm <;> simp [daytime, h]

theorem daytime_fst_length_le (loc : Bool) (tl tg : Option Tm) :
    ((daytime 128 loc tl tg).1).length ≤ 127 := by
  rcases h : (if loc then tl else tg) with _ | tm <;> simp [daytime, h, strftime]
  split
  · omega
  · simp

theorem sctp_daytime_eq_of_ok (e : SessionEnv) (h : e.acc.ok = true) :
    sctp_daytime e =
      (sctp_accept e.acc).2
        ++ (daytime 128 true e.tmLocal e.tmGmt).2
        ++ [Action.send 0 (daytime 128 true e.tmLocal e.tmGmt).1]
        ++ (if e.sentLocal ≠ ((daytime 128 true e.tmLocal e.tmGmt).1).length then
              [Action.logErr "sctp_sendmsg failed (daytime_stream_local)"] else [])
        ++ (daytime 128 false e.tmLocal e.tmGmt).2
        ++ [Action.send 1 (daytime 128 false e.tmLocal e.tmGmt).1]
        ++ (if e.sentGmt ≠ ((daytime 128 false e.tmLocal e.tmGmt).1).length then
              [Action.logErr "sctp_sendmsg failed (daytime_stream_gmt)"] else [])
        ++ [Action.close] := by
  have hfd : ((e.acc.fd : Int)) ≠ -1 := by omega
  simp [sctp_daytime, sctp_accept, h, hfd]

theorem strftimeFT_data (tm : Tm) :
    (strftimeFT tm).data =
      [digitChar ((tm.tm_year + 1900) / 1000), digitChar ((tm.tm_year + 1900) / 100),
       digitChar ((tm.tm_year + 1900) / 10), digitChar (tm.tm_year + 1900), '-',
       digitChar ((tm.tm_mon + 1) / 10), digitChar (tm.tm_mon + 1), '-',
       digitChar (tm.tm_mday / 10), digitChar tm.tm_mday, ' ',
       digitChar (tm.tm_hour / 10), digitChar tm.tm_hour, ':',
       digitChar (tm.tm_min / 10), digitChar tm.tm_min, ':',
       digitChar (tm.tm_sec / 10), digitChar tm.tm_sec, '\r', '\n'] := rfl

theorem digitChar_isDigit (n : Nat) : (digitChar n).isDigit = true := by
  have h : n % 10 < 10 := Nat.mod_lt _ (by norm_num)
  have key : ∀ m, m < 10 → (Char.ofNat (48 + m)).isDigit = true := by decide
  exact key _ h

theorem strftimeFT_length (tm : Tm) : (strftimeFT tm).length = 21 := by
  show (strftimeFT tm).data.length = 21
  rw [strftimeFT_data]
  rfl

/-- The shape the spec requires of a daytime string: exactly
YYYY-MM-DD HH:MM:SS followed by a carriage return and a line feed, with
every place-holder position a decimal digit. -/
def isDaytimeFormat (s : String) : Prop :=
  ∃ y1 y2 y3 y4 mo1 mo2 d1 d2 hh1 hh2 mi1 mi2 se1 se2 : Char,
    ([y1, y2, y3, y4, mo1, mo2, d1, d2, hh1, hh2, mi1, mi2, se1, se2].all Char.isDigit) = true ∧
    s.data = [y1, y2, y3, y4, '-', mo1, mo2, '-', d1, d2, ' ',
              hh1, hh2, ':', mi1, mi2, ':', se1, se2, '\r', '\n']

end Server

/-! Claim theorems. -/

/-- C1: the claim states that when `sctp_listen` fails (returns -1, from
resolution failure or exhaustion of bind candidates) the server exits with
a non-zero status. The code disagrees: `main` runs
`while (tfd != -1) sctp_daytime(tfd);` and then `return EXIT_SUCCESS`, so
a -1 from `sctp_listen` skips the loop and the process exits with status
0 — this theorem evaluates both failing inputs (resolution failure and a
candidate list whose only entry fails to bind) and shows the exit status
is `EXIT_SUCCESS = 0`. -/
theorem c1_exit_status_zero_on_listen_failure :
    Server.sctp_listen ⟨none, true⟩ = -1 ∧
    Server.sctp_listen ⟨some [⟨3, false⟩], true⟩ = -1 ∧
    Server.serverMain 2 ⟨none, true⟩ = some EXIT_SUCCESS ∧
    Server.serverMain 2 ⟨some [⟨3, false⟩], true⟩ = some EXIT_SUCCESS ∧
    EXIT_SUCCESS = 0 := by
  refine ⟨rfl, by decide, by decide, by decide, rfl⟩

/-- C2 counterexample: the claim states that a failed peer-address reverse
lookup is soft and the client still enables stream metadata and enters the
receive loop. On a concrete environment where `getpeername` fails while a
message is waiting, the client's `daytime` emits only the diagnostic and
returns: no `setsockopt(SCTP_EVENTS)` call and no receive-loop output. -/
theorem c2_lookup_failure_counterexample :
    Client.daytime ⟨false, "E", true, "", "127.0.0.1", "13", true, "", [⟨0, [65]⟩]⟩ =
      [Client.COut.err "daytime: getpeername: E\n"] ∧
    Client.COut.setEvents ∉
      Client.daytime ⟨false, "E", true, "", "127.0.0.1", "13", true, "", [⟨0, [65]⟩]⟩ := by
  decide

/-- C2 amended: a failure of `getpeername` or `getnameinfo` in the
client's receive phase is hard for the session: exactly one diagnostic is
printed to stderr and `daytime` returns immediately, without enabling
stream metadata and without entering the message-receive loop (so no
stdout line is ever produced for that connection). -/
theorem c2_lookup_failure_aborts_session (e : Client.ClientEnv) :
    (e.getpeernameOk = false →
      Client.daytime e =
        [Client.COut.err (Client.progname ++ ": getpeername: " ++ e.peerErr ++ "\n")]) ∧
    (e.getpeernameOk = true → e.getnameinfoOk = false →
      Client.daytime e =
        [Client.COut.err (Client.progname ++ ": getnameinfo: " ++ e.nameErr ++ "\n")]) ∧
    ((e.getpeernameOk = false ∨ e.getnameinfoOk = false) →
      Client.COut.setEvents ∉ Client.daytime e ∧
      ∀ s, Client.COut.out s ∉ Client.daytime e) := by
  refine ⟨fun h => by simp [Client.daytime, h], fun hp h => by simp [Client.daytime, hp, h], ?_⟩
  rintro (h | h)
  · constructor <;> simp [Client.daytime, h]
  · cases hp : e.getpeernameOk
    · constructor <;> simp [Client.daytime, hp]
    · constructor <;> simp [Client.daytime, hp, h]

/-- Witness for the C2 amended theorem on a concrete environment whose
`getnameinfo` fails. -/
theorem c2_lookup_failure_aborts_session_witness :
    Client.daytime ⟨true, "", false, "N", "h", "s", true, "", [⟨0, [65]⟩]⟩ =
      [Client.COut.err (Client.progname ++ ": getnameinfo: " ++ "N" ++ "\n")] ∧
    Client.COut.setEvents ∉
      Client.daytime ⟨true, "", false, "N", "h", "s", true, "", [⟨0, [65]⟩]⟩ :=
  ⟨(c2_lookup_failure_aborts_session _).2.1 rfl rfl,
   ((c2_lookup_failure_aborts_session _).2.2 (Or.inr rfl)).1⟩

/-- C3 counterexample: the claim states that every fatal connect-phase
failure message includes the original host and port. On resolution
failure the code prints only `progname: getaddrinfo: <gai error>`: at a
concrete host/port the message contains neither. (The non-zero exit part
of the claim does hold; see the amended theorem.) -/
theorem c3_resolution_message_counterexample :
    Client.sctp_connect "example.org" "13" ⟨none, "Name or service not known"⟩ =
      Client.ConnectResult.fatal EXIT_FAILURE
        "daytime: getaddrinfo: Name or service not known\n" ∧
    containsSub "example.org".data "daytime: getaddrinfo: Name or service not known\n".data
      = false ∧
    containsSub "13".data "daytime: getaddrinfo: Name or service not known\n".data = false := by
  decide

/-- C3 amended: if resolution fails, or every resolved candidate fails to
connect, the client terminates with the non-zero status `EXIT_FAILURE`;
the failure message names the original host and port in the
candidate-exhaustion case, while the resolution-failure message carries
only the resolver error string. -/
theorem c3_connect_failure_fatal (host port : String) (e : Client.ConnectEnv) :
    (e.resolved = none →
      Client.sctp_connect host port e =
        Client.ConnectResult.fatal EXIT_FAILURE
          (Client.progname ++ ": getaddrinfo: " ++ e.gaiErr ++ "\n")) ∧
    (∀ cands, e.resolved = some cands → Client.firstConn cands = none →
      Client.sctp_connect host port e =
        Client.ConnectResult.fatal EXIT_FAILURE
          (Client.progname ++ ": socket or connect: failed for " ++ host
            ++ " port " ++ port ++ "\n") ∧
      containsSub host.data
        (Client.progname ++ ": socket or connect: failed for " ++ host
          ++ " port " ++ port ++ "\n").data = true ∧
      containsSub port.data
        (Client.progname ++ ": socket or connect: failed for " ++ host
          ++ " port " ++ port ++ "\n").data = true) ∧
    EXIT_FAILURE ≠ 0 := by
  refine ⟨fun h => by simp [Client.sctp_connect, h], ?_, by decide⟩
  intro cands h1 h2
  refine ⟨by simp [Client.sctp_connect, h1, h2], ?_, ?_⟩
  · refine containsSub_of_eq _ _ ((Client.progname ++ ": socket or connect: failed for ").data)
      ((" port " ++ port ++ "\n").data) ?_
    simp [String.data_append, List.append_assoc]
  · refine containsSub_of_eq _ _
      ((Client.progname ++ ": socket or connect: failed for " ++ host ++ " port ").data)
      ("\n".data) ?_
    simp [String.data_append, List.append_assoc]

/-- Witness for the C3 amended theorem: a concrete host/port whose only
candidate fails to connect. -/
theorem c3_connect_failure_fatal_witness :
    Client.sctp_connect "example.org" "13" ⟨some [⟨3, false⟩], ""⟩ =
      Client.ConnectResult.fatal EXIT_FAILURE
        (Client.progname ++ ": socket or connect: failed for " ++ "example.org"
          ++ " port " ++ "13" ++ "\n") ∧
    containsSub "example.org".data
      (Client.progname ++ ": socket or connect: failed for " ++ "example.org"
        ++ " port " ++ "13" ++ "\n").data = true :=
  ⟨((c3_connect_failure_fatal "example.org" "13" ⟨some [⟨3, false⟩], ""⟩).2.1
      [⟨3, false⟩] rfl rfl).1,
   ((c3_connect_failure_fatal "example.org" "13" ⟨some [⟨3, false⟩], ""⟩).2.1
      [⟨3, false⟩] rfl rfl).2.1⟩

/-- C4: every received (NUL-free) message is trimmed at the first
occurrence of the CRLF sequence, and the result is dispatched on the
stream identifier: stream 0 prints a stdout line labeled "(local time)",
stream 1 a stdout line labeled "(gmt time)", and any other identifier
produces a single stderr diagnostic and no stdout line. -/
theorem c4_trim_and_stream_dispatch (host serv : String) (stream : Nat) (bytes : List Nat)
    (h : (0 : Nat) ∉ bytes) :
    (∀ i, findSub [13, 10] bytes = some i → Client.trimCRLF bytes = bytes.take i) ∧
    (findSub [13, 10] bytes = none → Client.trimCRLF bytes = bytes) ∧
    (Client.handleMessage host serv 0 bytes =
      [Client.COut.out (host ++ ":" ++ serv ++ "\t "
        ++ Client.bytesToString (Client.trimCRLF bytes) ++ " (local time)\n")]) ∧
    (Client.handleMessage host serv 1 bytes =
      [Client.COut.out (host ++ ":" ++ serv ++ "\t "
        ++ Client.bytesToString (Client.trimCRLF bytes) ++ " (gmt time)\n")]) ∧
    (stream ≠ 0 → stream ≠ 1 →
      Client.handleMessage host serv stream bytes =
        [Client.COut.err (Client.progname ++ ": ignoring message from unknown stream "
          ++ toString stream ++ "\n")] ∧
      ∀ s, Client.COut.out s ∉ Client.handleMessage host serv stream bytes) := by
  have hc := cstr_eq_self bytes h
  refine ⟨?_, ?_, ?_, ?_, ?_⟩
  · intro i hi; simp [Client.trimCRLF, hc, hi]
  · intro hn; simp [Client.trimCRLF, hc, hn]
  · simp [Client.handleMessage]
  · simp [Client.handleMessage]
  · intro h0 h1
    constructor
    · simp [Client.handleMessage, h0, h1]
    · intro s; simp [Client.handleMessage, h0, h1]

/-- Witness for C4 on a concrete message "20\r\nX" arriving on the
unknown stream 7. -/
theorem c4_trim_and_stream_dispatch_witness :
    (0 : Nat) ∉ ([50, 48, 13, 10, 88] : List Nat) ∧
    Client.trimCRLF [50, 48, 13, 10, 88] = List.take 2 [50, 48, 13, 10, 88] ∧
    Client.handleMessage "127.0.0.1" "13" 7 [50, 48, 13, 10, 88] =
      [Client.COut.err (Client.progname ++ ": ignoring message from unknown stream "
        ++ toString 7 ++ "\n")] :=
  ⟨by decide,
   (c4_trim_and_stream_dispatch "127.0.0.1" "13" 7 [50, 48, 13, 10, 88] (by decide)).1
     2 (by decide),
   ((c4_trim_and_stream_dispatch "127.0.0.1" "13" 7 [50, 48, 13, 10, 88] (by decide)).2.2.2.2
     (by decide) (by decide)).1⟩

/-- C10: a received (NUL-free) message containing no CRLF sequence is not
dropped: it is printed in full, un-trimmed, with its stream label, exactly
as a terminated message would be. -/
theorem c10_unterminated_message_printed_in_full (host serv : String) (bytes : List Nat)
    (h : (0 : Nat) ∉ bytes) (hno : findSub [13, 10] bytes = none) :
    Client.handleMessage host serv 0 bytes =
      [Client.COut.out (host ++ ":" ++ serv ++ "\t " ++ Client.bytesToString bytes
        ++ " (local time)\n")] ∧
    Client.handleMessage host serv 1 bytes =
      [Client.COut.out (host ++ ":" ++ serv ++ "\t " ++ Client.bytesToString bytes
        ++ " (gmt time)\n")] := by
  have ht : Client.trimCRLF bytes = bytes := by
    simp [Client.trimCRLF, cstr_eq_self bytes h, hno]
  constructor <;> simp [Client.handleMessage, ht]

/-- Witness for C10 on the unterminated message "Hi". -/
theorem c10_unterminated_message_printed_in_full_witness :
    (0 : Nat) ∉ ([72, 105] : List Nat) ∧
    findSub [13, 10] [72, 105] = none ∧
    Client.handleMessage "10.0.0.1" "1313" 0 [72, 105] =
      [Client.COut.out ("10.0.0.1" ++ ":" ++ "1313" ++ "\t "
        ++ Client.bytesToString [72, 105] ++ " (local time)\n")] :=
  ⟨by decide, by decide,
   (c10_unterminated_message_printed_in_full "10.0.0.1" "1313" [72, 105]
     (by decide) (by decide)).1⟩

/-- C5: on every execution path after a successful accept the session
handler closes the client association exactly once (the trace ends in a
close and no close occurs before it); both message sends occur whatever
byte counts the transport reports, and a reported count differing from
the message length only adds a log entry. -/
theorem c5_close_exactly_once (e : Server.SessionEnv) (h : e.acc.ok = true) :
    (∃ pre, Server.sctp_daytime e = pre ++ [Server.Action.close] ∧
      Server.Action.close ∉ pre) ∧
    Server.Action.send 0 ((Server.daytime 128 true e.tmLocal e.tmGmt).1)
      ∈ Server.sctp_daytime e ∧
    Server.Action.send 1 ((Server.daytime 128 false e.tmLocal e.tmGmt).1)
      ∈ Server.sctp_daytime e ∧
    (e.sentLocal ≠ ((Server.daytime 128 true e.tmLocal e.tmGmt).1).length →
      Server.Action.logErr "sctp_sendmsg failed (daytime_stream_local)"
        ∈ Server.sctp_daytime e) ∧
    (e.sentGmt ≠ ((Server.daytime 128 false e.tmLocal e.tmGmt).1).length →
      Server.Action.logErr "sctp_sendmsg failed (daytime_stream_gmt)"
        ∈ Server.sctp_daytime e) := by
  have hshape := Server.sctp_daytime_eq_of_ok e h
  refine ⟨⟨_, hshape, ?_⟩, ?_, ?_, ?_, ?_⟩
  · have hA := Server.close_not_mem_accept_snd e.acc
    have h1 := Server.close_not_mem_daytime_snd 128 true e.tmLocal e.tmGmt
    have h2 := Server.close_not_mem_daytime_snd 128 false e.tmLocal e.tmGmt
    simp only [List.mem_append, not_or]
    refine ⟨⟨⟨⟨⟨⟨hA, h1⟩, by simp⟩, ?_⟩, h2⟩, by simp⟩, ?_⟩
    · split <;> simp
    · split <;> simp
  · rw [hshape]; simp
  · rw [hshape]; simp
  · intro hne; rw [hshape]; simp [hne]
  · intro hne; rw [hshape]; simp [hne]

/-- Witness for C5 on a session whose GMT send reports a short count. -/
theorem c5_close_exactly_once_witness :
    (∃ pre, Server.sctp_daytime
        ⟨⟨true, 4, true, "peer", "5"⟩, some ⟨56, 34, 12, 11, 9, 126⟩,
          some ⟨57, 34, 10, 11, 9, 126⟩, 21, 5⟩ = pre ++ [Server.Action.close] ∧
      Server.Action.close ∉ pre) ∧
    Server.Action.send 0 ((Server.daytime 128 true (some ⟨56, 34, 12, 11, 9, 126⟩)
        (some ⟨57, 34, 10, 11, 9, 126⟩)).1)
      ∈ Server.sctp_daytime
        ⟨⟨true, 4, true, "peer", "5"⟩, some ⟨56, 34, 12, 11, 9, 126⟩,
          some ⟨57, 34, 10, 11, 9, 126⟩, 21, 5⟩ :=
  ⟨(c5_close_exactly_once _ rfl).1, (c5_close_exactly_once _ rfl).2.1⟩

/-- C6: when the time breakdown fails the formatter produces the empty
string and logs an error, and the session handler still finishes with a
clean close of the association after a successful accept. -/
theorem c6_formatter_failure_soft (e : Server.SessionEnv) (loc : Bool)
    (hok : e.acc.ok = true) (h : (if loc then e.tmLocal else e.tmGmt) = none) :
    Server.daytime 128 loc e.tmLocal e.tmGmt =
      ("", [Server.Action.logErr "localtime or gmtime failed"]) ∧
    (∃ pre, Server.sctp_daytime e = pre ++ [Server.Action.close]) := by
  constructor
  · simp [Server.daytime, h]
  · exact ⟨_, Server.sctp_daytime_eq_of_ok e hok⟩

/-- Witness for C6 on a session where both time breakdowns fail. -/
theorem c6_formatter_failure_soft_witness :
    Server.daytime 128 true (none : Option Server.Tm) (none : Option Server.Tm) =
      ("", [Server.Action.logErr "localtime or gmtime failed"]) ∧
    (∃ pre, Server.sctp_daytime ⟨⟨true, 4, true, "p", "9"⟩, none, none, 0, 0⟩ =
      pre ++ [Server.Action.close]) :=
  ⟨(c6_formatter_failure_soft ⟨⟨true, 4, true, "p", "9"⟩, none, none, 0, 0⟩ true rfl rfl).1,
   (c6_formatter_failure_soft ⟨⟨true, 4, true, "p", "9"⟩, none, none, 0, 0⟩ true rfl rfl).2⟩

/-- C7: for every time value whose breakdown succeeds (with its fields in
the ranges localtime/gmtime produce), the formatter renders exactly
YYYY-MM-DD HH:MM:SS followed by CRLF — the strftime pattern %F %T\r\n —
taking the local-time breakdown when the local flag is set and the GMT
breakdown otherwise. -/
theorem c7_daytime_format (loc : Bool) (tmLocal tmGmt : Option Server.Tm) (tm : Server.Tm)
    (h : (if loc then tmLocal else tmGmt) = some tm)
    (_hy : tm.tm_year + 1900 ≤ 9999) (_hmo : tm.tm_mon ≤ 11) (_hd : tm.tm_mday ≤ 31)
    (_hh : tm.tm_hour ≤ 23) (_hmi : tm.tm_min ≤ 59) (_hs : tm.tm_sec ≤ 60) :
    Server.daytime 128 loc tmLocal tmGmt = (Server.strftimeFT tm, []) ∧
    Server.isDaytimeFormat (Server.strftimeFT tm) := by
  constructor
  · simp [Server.daytime, h, Server.strftime, Server.strftimeFT_length]
  · refine ⟨_, _, _, _, _, _, _, _, _, _, _, _, _, _, ?_, Server.strftimeFT_data tm⟩
    simp [Server.digitChar_isDigit]

/-- Witness for C7 at the local-time breakdown 2026-10-11 12:34:56. -/
theorem c7_daytime_format_witness :
    Server.daytime 128 true (some ⟨56, 34, 12, 11, 9, 126⟩) none =
      (Server.strftimeFT ⟨56, 34, 12, 11, 9, 126⟩, []) ∧
    Server.isDaytimeFormat (Server.strftimeFT ⟨56, 34, 12, 11, 9, 126⟩) :=
  c7_daytime_format true (some ⟨56, 34, 12, 11, 9, 126⟩) none ⟨56, 34, 12, 11, 9, 126⟩
    rfl (by decide) (by decide) (by decide) (by decide) (by decide) (by decide)

/-- C8: no message exceeds 127 bytes on either side: every payload the
server session handler passes to a send comes from a 128-byte buffer and
has length at most 127, and every read of the client receive loop stores
at most sizeof(message) - 1 = 127 bytes. -/
theorem c8_message_length_bounded :
    (∀ (e : Server.SessionEnv) (s : Nat) (p : String),
      Server.Action.send s p ∈ Server.sctp_daytime e → p.length ≤ 127) ∧
    (∀ m : Client.WireMsg, (Client.recvRead m).length ≤ 127) := by
  constructor
  · intro e s p hmem
    cases hok : e.acc.ok
    · have htr : Server.sctp_daytime e = [Server.Action.logErr "accept failed"] := by
        simp [Server.sctp_daytime, Server.sctp_accept, hok]
      rw [htr] at hmem
      simp at hmem
    · rw [Server.sctp_daytime_eq_of_ok e hok] at hmem
      have hA := Server.send_not_mem_accept_snd e.acc s p
      have h1 := Server.send_not_mem_daytime_snd 128 true e.tmLocal e.tmGmt s p
      have h2 := Server.send_not_mem_daytime_snd 128 false e.tmLocal e.tmGmt s p
      have hif : ∀ (c : Prop) (inst : Decidable c) (m : String),
          Server.Action.send s p ∉ (if c then [Server.Action.logErr m] else []) := by
        intro c inst m; split <;> simp
      simp only [List.mem_append, List.mem_singleton] at hmem
      rcases hmem with (((((((hm | hm) | hm) | hm) | hm) | hm) | hm) | hm)
      · exact absurd hm hA
      · exact absurd hm h1
      · injection hm with hs hp
        rw [hp]
        exact Server.daytime_fst_length_le true e.tmLocal e.tmGmt
      · exact absurd hm (hif _ _ _)
      · exact absurd hm h2
      · injection hm with hs hp
        rw [hp]
        exact Server.daytime_fst_length_le false e.tmLocal e.tmGmt
      · exact absurd hm (hif _ _ _)
      · exact absurd hm (by simp)
  · intro m
    simp only [Client.recvRead, List.length_take]
    omega

/-- Witness for C8 on a send taken from a concrete session trace and on a
concrete oversized delivery. -/
theorem c8_message_length_bounded_witness :
    Server.Action.send 0 "" ∈
      Server.sctp_daytime ⟨⟨true, 6, true, "w", "2"⟩, none, none, 0, 0⟩ ∧
    ("" : String).length ≤ 127 ∧
    (Client.recvRead ⟨0, List.replicate 200 65⟩).length ≤ 127 :=
  ⟨by decide,
   c8_message_length_bounded.1 ⟨⟨true, 6, true, "w", "2"⟩, none, none, 0, 0⟩ 0 "" (by decide),
   c8_message_length_bounded.2 ⟨0, List.replicate 200 65⟩⟩

/-- C9: a failed accept is never fatal: `sctp_accept` logs and returns
-1, the session handler returns without sending or closing anything, and
the top-level loop guard (which depends only on the untouched listen
descriptor) keeps the server running through any sequence of sessions. -/
theorem c9_accept_failure_nonfatal (e : Server.SessionEnv) (tfd : Int)
    (sessions : List Server.SessionEnv) (h : e.acc.ok = false) (htfd : tfd ≠ -1) :
    Server.sctp_accept e.acc = (-1, [Server.Action.logErr "accept failed"]) ∧
    Server.sctp_daytime e = [Server.Action.logErr "accept failed"] ∧
    (∀ s p, Server.Action.send s p ∉ Server.sctp_daytime e) ∧
    Server.Action.close ∉ Server.sctp_daytime e ∧
    (Server.serverRun tfd sessions).2 = false := by
  have hacc : Server.sctp_accept e.acc = (-1, [Server.Action.logErr "accept failed"]) := by
    simp [Server.sctp_accept, h]
  have hd : Server.sctp_daytime e = [Server.Action.logErr "accept failed"] := by
    simp [Server.sctp_daytime, hacc]
  refine ⟨hacc, hd, ?_, ?_, ?_⟩
  · intro s p; rw [hd]; simp
  · rw [hd]; simp
  · induction sessions with
    | nil => simp [Server.serverRun, htfd]
    | cons a l ih =>
      simp only [Server.serverRun, if_neg htfd]
      exact ih

/-- Witness for C9 on a concrete failing accept inside a running loop. -/
theorem c9_accept_failure_nonfatal_witness :
    Server.sctp_daytime ⟨⟨false, 0, true, "", ""⟩, none, none, 0, 0⟩ =
      [Server.Action.logErr "accept failed"] ∧
    (Server.serverRun 5 [⟨⟨false, 0, true, "", ""⟩, none, none, 0, 0⟩]).2 = false :=
  ⟨(c9_accept_failure_nonfatal ⟨⟨false, 0, true, "", ""⟩, none, none, 0, 0⟩ 5
      [⟨⟨false, 0, true, "", ""⟩, none, none, 0, 0⟩] rfl (by decide)).2.1,
   (c9_accept_failure_nonfatal ⟨⟨false, 0, true, "", ""⟩, none, none, 0, 0⟩ 5
      [⟨⟨false, 0, true, "", ""⟩, none, none, 0, 0⟩] rfl (by decide)).2.2.2.2⟩
